import Mathlib

/-!
# Wall-run character: per-tick wall detection and wall attachment

A shallow embedding of `AWallRunCharacter::Tick` and
`AWallRunCharacter::AttachToWall` (Source/WallRun/WallRunCharacter.cpp).

Numbers are exact reals: the engine's `float` arithmetic is idealised, so
`FMath::Atan2`, `FMath::SinCos` and `FMath::Sqrt` are the mathematical
functions.  The engine types used by the two functions (`FVector`,
`FRotator`, `FRotationMatrix`, `FHitResult`) are embedded with the fields and
formulas the two functions rely on.  The collision world is a function from a
ray (start point, end point) to an optional hit result.  The tunables
`PlayerToWallDistance` and `WallRunSpeed` are declared in the class header and
are parameters here.
-/

noncomputable section

namespace WallRun

/-! ## Engine math types -/

/-- Engine vector with three real components. -/
@[ext]
structure FVector where
  X : ℝ
  Y : ℝ
  Z : ℝ

namespace FVector

/-- Component-wise sum, the engine's `FVector::operator+`. -/
def add (a b : FVector) : FVector := ⟨a.X + b.X, a.Y + b.Y, a.Z + b.Z⟩

/-- Component-wise negation, the engine's unary `FVector::operator-`. -/
def neg (a : FVector) : FVector := ⟨-a.X, -a.Y, -a.Z⟩

/-- Component-wise difference, the engine's binary `FVector::operator-`. -/
def sub (a b : FVector) : FVector := ⟨a.X - b.X, a.Y - b.Y, a.Z - b.Z⟩

/-- Scaling by a scalar on the right, the engine's `FVector::operator*(float)`. -/
def scale (a : FVector) (s : ℝ) : FVector := ⟨a.X * s, a.Y * s, a.Z * s⟩

instance : Add FVector := ⟨add⟩
instance : Neg FVector := ⟨neg⟩
instance : Sub FVector := ⟨sub⟩
instance : HMul FVector ℝ FVector := ⟨scale⟩

/-- The engine's `FVector::ZeroVector`. -/
def ZeroVector : FVector := ⟨0, 0, 0⟩

end FVector

/-- Engine rotator, in degrees; the constructor takes pitch, yaw, roll in
this order, as `FRotator(InPitch, InYaw, InRoll)` does. -/
structure FRotator where
  Pitch : ℝ
  Yaw : ℝ
  Roll : ℝ

/-- The engine's `FMath::DegreesToRadians`. -/
def DegreesToRadians (d : ℝ) : ℝ := d * (Real.pi / 180)

/-- The engine's `FMath::Atan2(Y, X)`: the angle of the point `(X, Y)`, in
`(-π, π]`, and `0` at the origin. -/
def Atan2 (Y X : ℝ) : ℝ := Complex.arg ⟨X, Y⟩

/-- The engine's `FVector::Rotation()`: yaw from `(X, Y)`, pitch from the
height over the horizontal length, roll zero; in degrees. -/
def FVector.Rotation (v : FVector) : FRotator :=
  { Yaw := Atan2 v.Y v.X * (180 / Real.pi)
    Pitch := Atan2 v.Z (Real.sqrt (v.X * v.X + v.Y * v.Y)) * (180 / Real.pi)
    Roll := 0 }

/-- The three axes of a rotation matrix. -/
inductive EAxis where
  | X
  | Y
  | Z

/-- The rotation part of the engine's `FMatrix`: its first three rows. -/
structure FMatrix where
  Row0 : FVector
  Row1 : FVector
  Row2 : FVector

/-- The engine's `FRotationMatrix(Rot)`, row by row. -/
def FRotationMatrix (Rot : FRotator) : FMatrix :=
  let SP := Real.sin (DegreesToRadians Rot.Pitch)
  let CP := Real.cos (DegreesToRadians Rot.Pitch)
  let SY := Real.sin (DegreesToRadians Rot.Yaw)
  let CY := Real.cos (DegreesToRadians Rot.Yaw)
  let SR := Real.sin (DegreesToRadians Rot.Roll)
  let CR := Real.cos (DegreesToRadians Rot.Roll)
  { Row0 := ⟨CP * CY, CP * SY, SP⟩
    Row1 := ⟨SR * SP * CY - CR * SY, SR * SP * SY + CR * CY, -SR * CP⟩
    Row2 := ⟨-(CR * SP * CY + SR * SY), CY * SR - CR * SP * SY, CR * CP⟩ }

/-- The engine's `FMatrix::GetScaledAxis`: the row of the given axis. -/
def FMatrix.GetScaledAxis (M : FMatrix) : EAxis → FVector
  | EAxis.X => M.Row0
  | EAxis.Y => M.Row1
  | EAxis.Z => M.Row2

/-- The engine's `FMatrix::TransformVector`: the row vector `V` times the
rotation part of `M`. -/
def FMatrix.TransformVector (M : FMatrix) (V : FVector) : FVector :=
  ⟨V.X * M.Row0.X + V.Y * M.Row1.X + V.Z * M.Row2.X,
   V.X * M.Row0.Y + V.Y * M.Row1.Y + V.Z * M.Row2.Y,
   V.X * M.Row0.Z + V.Y * M.Row1.Z + V.Z * M.Row2.Z⟩

/-- The engine's `FRotator::RotateVector`. -/
def FRotator.RotateVector (R : FRotator) (V : FVector) : FVector :=
  (FRotationMatrix R).TransformVector V

/-- The fields of the engine's `FHitResult` that describe where and how a
trace hit. -/
structure FHitResult where
  Distance : ℝ
  Location : FVector
  ImpactPoint : FVector
  Normal : FVector
  ImpactNormal : FVector

/-! ## The actor -/

/-- The character's kinematic state: root location and rotation, the
movement component's velocity, and whether the movement mode is falling. -/
structure Actor where
  Location : FVector
  Rotation : FRotator
  Velocity : FVector
  IsFalling : Bool

/-- The engine's `AActor::GetActorLocation`. -/
def GetActorLocation (a : Actor) : FVector := a.Location

/-- The engine's `AActor::GetActorForwardVector`: the X axis of the actor's
rotation. -/
def GetActorForwardVector (a : Actor) : FVector :=
  (FRotationMatrix a.Rotation).GetScaledAxis EAxis.X

/-- The engine's `AActor::GetActorRightVector`: the Y axis of the actor's
rotation. -/
def GetActorRightVector (a : Actor) : FVector :=
  (FRotationMatrix a.Rotation).GetScaledAxis EAxis.Y

/-- The engine's `StopMovementKeepPathing`: the velocity is zeroed. -/
def StopMovementKeepPathing (a : Actor) : Actor :=
  { a with Velocity := FVector.ZeroVector }

/-- The engine's `SetActorRotation` with teleport: the rotation is replaced. -/
def SetActorRotation (NewRotation : FRotator) (a : Actor) : Actor :=
  { a with Rotation := NewRotation }

/-- The engine's `SetActorLocation` without sweep: the location is replaced. -/
def SetActorLocation (NewLocation : FVector) (a : Actor) : Actor :=
  { a with Location := NewLocation }

/-! ## The two sides -/

/-- The constant `#define LEFT -90`. -/
def LEFT : ℤ := -90

/-- The constant `#define RIGHT 90`. -/
def RIGHT : ℤ := 90

/-! ## AttachToWall -/

/-- The function `AWallRunCharacter::AttachToWall(Direction, WallSpeed, HitResult)`,
as a function on the actor. -/
def AttachToWall (Direction : ℤ) (WallSpeed : ℝ) (HitResult : FHitResult)
    (a : Actor) : Actor :=
  let a1 := StopMovementKeepPathing a
  let RotationOf90Degrees : FRotator := ⟨0, (Direction : ℝ), 0⟩
  let LeftOrRightDirection : FRotator :=
    (RotationOf90Degrees.RotateVector HitResult.Normal).Rotation
  let newRotation : FRotator := ⟨0, LeftOrRightDirection.Yaw, 0⟩
  let a2 := SetActorRotation newRotation a1
  let NewLoc : FVector :=
    (FRotationMatrix HitResult.Normal.Rotation).GetScaledAxis EAxis.Y * WallSpeed
  let NewLoc : FVector :=
    if Direction = LEFT then -NewLoc + GetActorLocation a2
    else NewLoc + GetActorLocation a2
  SetActorLocation NewLoc a2

/-! ## Tick -/

/-- The collision world: a line trace from a start point to an end point
either misses or returns a hit result. -/
abbrev SurfaceProbe := FVector → FVector → Option FHitResult

/-- The three line-trace call sites of `Tick`, named after the variable that
receives the hit. -/
inductive TraceSite where
  | HitResultLeft
  | HitResulRight
  | HitResultForward
  deriving DecidableEq

/-- One recorded call of `LineTraceSingleByChannel`. -/
structure TraceCall where
  site : TraceSite
  Start : FVector
  End : FVector

/-- One recorded call of `AttachToWall`. -/
structure AttachCall where
  Direction : ℤ
  WallSpeed : ℝ
  HitResult : FHitResult

/-- The actor during a tick, with the line traces and the `AttachToWall`
calls issued so far, oldest first. -/
structure Frame where
  actor : Actor
  traces : List TraceCall
  attaches : List AttachCall

/-- The frame at the start of a tick. -/
def Frame.start (a : Actor) : Frame := ⟨a, [], []⟩

/-- A call of `GetWorld()->LineTraceSingleByChannel(OutHit, Start, End, ..)`:
the world answers and the call is recorded. -/
def LineTraceSingleByChannel (world : SurfaceProbe) (site : TraceSite)
    (Start End : FVector) (f : Frame) : Option FHitResult × Frame :=
  (world Start End, { f with traces := f.traces ++ [⟨site, Start, End⟩] })

/-- A call of `AttachToWall` from `Tick`: the actor is updated and the call
is recorded. -/
def callAttachToWall (Direction : ℤ) (WallSpeed : ℝ) (HitResult : FHitResult)
    (f : Frame) : Frame :=
  { f with actor := AttachToWall Direction WallSpeed HitResult f.actor
           attaches := f.attaches ++ [⟨Direction, WallSpeed, HitResult⟩] }

/-- The wall-run step of `AWallRunCharacter::Tick`.  The call of
`Super::Tick` before it and the three `DrawDebugLine` calls after it belong
to the engine and do not touch what the step reads or writes. -/
def Tick (world : SurfaceProbe) (PlayerToWallDistance WallRunSpeed : ℝ)
    (f : Frame) : Frame :=
  if f.actor.IsFalling then
    let Start : FVector := GetActorLocation f.actor
    let End : FVector := GetActorRightVector f.actor * PlayerToWallDistance
    let ForwardEnd : FVector := GetActorForwardVector f.actor * PlayerToWallDistance
    match LineTraceSingleByChannel world TraceSite.HitResultLeft Start (Start + -End) f with
    | (some HitResultLeft, f1) =>
      match LineTraceSingleByChannel world TraceSite.HitResultForward Start
          (Start + ForwardEnd) f1 with
      | (some HitResultForward, f2) => callAttachToWall LEFT WallRunSpeed HitResultForward f2
      | (none, f2) => callAttachToWall LEFT WallRunSpeed HitResultLeft f2
    | (none, f1) =>
      match LineTraceSingleByChannel world TraceSite.HitResulRight Start (Start + End) f1 with
      | (some HitResulRight, f2) =>
        match LineTraceSingleByChannel world TraceSite.HitResultForward Start
            (Start + ForwardEnd) f2 with
        | (some HitResultForward, f3) =>
          callAttachToWall RIGHT WallRunSpeed HitResultForward f3
        | (none, f3) => callAttachToWall RIGHT WallRunSpeed HitResulRight f3
      | (none, f2) => f2
  else f

/-! ## Notions used to state the properties -/

/-- End point of the left probe ray: position minus right times distance. -/
def leftRayEnd (a : Actor) (d : ℝ) : FVector :=
  a.Location + -(GetActorRightVector a * d)

/-- End point of the right probe ray: position plus right times distance. -/
def rightRayEnd (a : Actor) (d : ℝ) : FVector :=
  a.Location + GetActorRightVector a * d

/-- End point of the forward probe ray: position plus forward times distance. -/
def forwardRayEnd (a : Actor) (d : ℝ) : FVector :=
  a.Location + GetActorForwardVector a * d

/-- What the left probe returns for this actor. -/
def leftProbe (world : SurfaceProbe) (a : Actor) (d : ℝ) : Option FHitResult :=
  world a.Location (leftRayEnd a d)

/-- What the right probe returns for this actor. -/
def rightProbe (world : SurfaceProbe) (a : Actor) (d : ℝ) : Option FHitResult :=
  world a.Location (rightRayEnd a d)

/-- What the forward probe returns for this actor. -/
def forwardProbe (world : SurfaceProbe) (a : Actor) (d : ℝ) : Option FHitResult :=
  world a.Location (forwardRayEnd a d)

/-- Rotation of a vector about the vertical (Z) axis by an angle in degrees,
counter-clockwise seen from above for a positive angle. -/
def rotateAboutVertical (deg : ℝ) (v : FVector) : FVector :=
  ⟨v.X * Real.cos (deg * (Real.pi / 180)) - v.Y * Real.sin (deg * (Real.pi / 180)),
   v.X * Real.sin (deg * (Real.pi / 180)) + v.Y * Real.cos (deg * (Real.pi / 180)),
   v.Z⟩

/-- The direction along the wall as the specification words it: the local
right axis of the yaw-only rotation whose yaw is the yaw of the normal. -/
def alongWallUnit (n : FVector) : FVector :=
  (FRotationMatrix ⟨0, n.Rotation.Yaw, 0⟩).GetScaledAxis EAxis.Y

/-- The result of one tick started from a fresh frame. -/
def runTick (world : SurfaceProbe) (d speed : ℝ) (a : Actor) : Frame :=
  Tick world d speed (Frame.start a)

/-- The recorded left trace of a tick. -/
def leftCall (a : Actor) (d : ℝ) : TraceCall :=
  ⟨TraceSite.HitResultLeft, a.Location, leftRayEnd a d⟩

/-- The recorded right trace of a tick. -/
def rightCall (a : Actor) (d : ℝ) : TraceCall :=
  ⟨TraceSite.HitResulRight, a.Location, rightRayEnd a d⟩

/-- The recorded forward trace of a tick. -/
def forwardCall (a : Actor) (d : ℝ) : TraceCall :=
  ⟨TraceSite.HitResultForward, a.Location, forwardRayEnd a d⟩

/-! ## Concrete scenes -/

/-- A falling character at `(0,0,100)` with zero rotation, so that forward is
`(1,0,0)` and right is `(0,1,0)`. -/
def fallingActor : Actor := ⟨⟨0, 0, 100⟩, ⟨0, 0, 0⟩, ⟨0, 0, -50⟩, true⟩

/-- The same character standing on the ground. -/
def walkingActor : Actor := ⟨⟨0, 0, 100⟩, ⟨0, 0, 0⟩, ⟨200, 0, 0⟩, false⟩

/-- A falling character at the same place, turned by 45 degrees and moving
differently. -/
def turnedActor : Actor := ⟨⟨0, 0, 100⟩, ⟨0, 45, 0⟩, ⟨10, 20, -30⟩, true⟩

/-- A hit on a wall to the left, whose normal `(0,1,0)` faces the character. -/
def leftWallHit : FHitResult := ⟨80, ⟨0, -80, 100⟩, ⟨0, -80, 100⟩, ⟨0, 1, 0⟩, ⟨0, 1, 0⟩⟩

/-- A hit on a wall to the right, whose normal `(0,-1,0)` faces the character. -/
def rightWallHit : FHitResult := ⟨70, ⟨0, 70, 100⟩, ⟨0, 70, 100⟩, ⟨0, -1, 0⟩, ⟨0, -1, 0⟩⟩

/-- A hit on a wall ahead, whose normal `(-1,0,0)` faces the character. -/
def frontWallHit : FHitResult := ⟨60, ⟨60, 0, 100⟩, ⟨60, 0, 100⟩, ⟨-1, 0, 0⟩, ⟨-1, 0, 0⟩⟩

/-- A hit on the left wall at another point and distance, same normal. -/
def farLeftWallHit : FHitResult := ⟨95, ⟨40, -95, 130⟩, ⟨40, -95, 130⟩, ⟨0, 1, 0⟩, ⟨0, 1, 0⟩⟩

/-- A world without walls. -/
def emptyWorld : SurfaceProbe := fun _ _ => none

/-- A world with one wall, on the side of negative Y. -/
def leftWallWorld : SurfaceProbe := fun _ e =>
  if e.Y < 0 then some leftWallHit else none

/-- A world with one wall, on the side of positive Y. -/
def rightWallWorld : SurfaceProbe := fun _ e =>
  if 0 < e.Y then some rightWallHit else none

/-- A world with a wall on the side of negative Y and a wall ahead. -/
def cornerWorld : SurfaceProbe := fun _ e =>
  if e.Y < 0 then some leftWallHit else if 0 < e.X then some frontWallHit else none

/-- A world with a wall on either side and none ahead. -/
def corridorWorld : SurfaceProbe := fun _ e =>
  if e.Y < 0 then some leftWallHit else if 0 < e.Y then some rightWallHit else none

/-! ## Vector arithmetic, unfolded -/

theorem FVector.add_eq (a b : FVector) :
    a + b = ⟨a.X + b.X, a.Y + b.Y, a.Z + b.Z⟩ := rfl

theorem FVector.neg_eq (a : FVector) : -a = ⟨-a.X, -a.Y, -a.Z⟩ := rfl

theorem FVector.sub_eq (a b : FVector) :
    a - b = ⟨a.X - b.X, a.Y - b.Y, a.Z - b.Z⟩ := rfl

theorem FVector.mul_eq (a : FVector) (s : ℝ) :
    a * s = ⟨a.X * s, a.Y * s, a.Z * s⟩ := rfl

/-! ## The concrete scene, evaluated -/

theorem fallingActor_forward : GetActorForwardVector fallingActor = ⟨1, 0, 0⟩ := by
  simp [GetActorForwardVector, fallingActor, FRotationMatrix, FMatrix.GetScaledAxis,
    DegreesToRadians]

theorem fallingActor_right : GetActorRightVector fallingActor = ⟨0, 1, 0⟩ := by
  simp [GetActorRightVector, fallingActor, FRotationMatrix, FMatrix.GetScaledAxis,
    DegreesToRadians]

theorem fallingActor_leftRayEnd : leftRayEnd fallingActor 100 = ⟨0, -100, 100⟩ := by
  simp [leftRayEnd, fallingActor_right, FVector.add_eq, FVector.neg_eq, FVector.mul_eq]
  simp [fallingActor]

theorem fallingActor_rightRayEnd : rightRayEnd fallingActor 100 = ⟨0, 100, 100⟩ := by
  simp [rightRayEnd, fallingActor_right, FVector.add_eq, FVector.mul_eq]
  simp [fallingActor]

theorem fallingActor_forwardRayEnd : forwardRayEnd fallingActor 100 = ⟨100, 0, 100⟩ := by
  simp [forwardRayEnd, fallingActor_forward, FVector.add_eq, FVector.mul_eq]
  simp [fallingActor]

/-! ## The five paths through the falling branch -/

theorem runTick_left_forward (world : SurfaceProbe) (d speed : ℝ) (a : Actor)
    (hl hf : FHitResult) (h : a.IsFalling = true)
    (h1 : leftProbe world a d = some hl) (h2 : forwardProbe world a d = some hf) :
    runTick world d speed a =
      ⟨AttachToWall LEFT speed hf a, [leftCall a d, forwardCall a d], [⟨LEFT, speed, hf⟩]⟩ := by
  simp only [leftProbe, leftRayEnd, forwardProbe, forwardRayEnd] at h1 h2
  simp [runTick, Tick, Frame.start, h, LineTraceSingleByChannel, GetActorLocation, h1, h2,
    callAttachToWall, leftCall, forwardCall, leftRayEnd, forwardRayEnd]

theorem runTick_left_only (world : SurfaceProbe) (d speed : ℝ) (a : Actor)
    (hl : FHitResult) (h : a.IsFalling = true)
    (h1 : leftProbe world a d = some hl) (h2 : forwardProbe world a d = none) :
    runTick world d speed a =
      ⟨AttachToWall LEFT speed hl a, [leftCall a d, forwardCall a d], [⟨LEFT, speed, hl⟩]⟩ := by
  simp only [leftProbe, leftRayEnd, forwardProbe, forwardRayEnd] at h1 h2
  simp [runTick, Tick, Frame.start, h, LineTraceSingleByChannel, GetActorLocation, h1, h2,
    callAttachToWall, leftCall, forwardCall, leftRayEnd, forwardRayEnd]

theorem runTick_right_forward (world : SurfaceProbe) (d speed : ℝ) (a : Actor)
    (hr hf : FHitResult) (h : a.IsFalling = true)
    (h1 : leftProbe world a d = none) (h2 : rightProbe world a d = some hr)
    (h3 : forwardProbe world a d = some hf) :
    runTick world d speed a =
      ⟨AttachToWall RIGHT speed hf a, [leftCall a d, rightCall a d, forwardCall a d],
        [⟨RIGHT, speed, hf⟩]⟩ := by
  simp only [leftProbe, leftRayEnd, forwardProbe, forwardRayEnd, rightProbe, rightRayEnd]
    at h1 h2 h3
  simp [runTick, Tick, Frame.start, h, LineTraceSingleByChannel, GetActorLocation, h1, h2, h3,
    callAttachToWall, leftCall, forwardCall, rightCall, leftRayEnd, forwardRayEnd, rightRayEnd]

theorem runTick_right_only (world : SurfaceProbe) (d speed : ℝ) (a : Actor)
    (hr : FHitResult) (h : a.IsFalling = true)
    (h1 : leftProbe world a d = none) (h2 : rightProbe world a d = some hr)
    (h3 : forwardProbe world a d = none) :
    runTick world d speed a =
      ⟨AttachToWall RIGHT speed hr a, [leftCall a d, rightCall a d, forwardCall a d],
        [⟨RIGHT, speed, hr⟩]⟩ := by
  simp only [leftProbe, leftRayEnd, forwardProbe, forwardRayEnd, rightProbe, rightRayEnd]
    at h1 h2 h3
  simp [runTick, Tick, Frame.start, h, LineTraceSingleByChannel, GetActorLocation, h1, h2, h3,
    callAttachToWall, leftCall, forwardCall, rightCall, leftRayEnd, forwardRayEnd, rightRayEnd]

theorem runTick_no_side (world : SurfaceProbe) (d speed : ℝ) (a : Actor)
    (h : a.IsFalling = true)
    (h1 : leftProbe world a d = none) (h2 : rightProbe world a d = none) :
    runTick world d speed a = ⟨a, [leftCall a d, rightCall a d], []⟩ := by
  simp only [leftProbe, leftRayEnd, rightProbe, rightRayEnd] at h1 h2
  simp [runTick, Tick, Frame.start, h, LineTraceSingleByChannel, GetActorLocation, h1, h2,
    leftCall, rightCall, leftRayEnd, rightRayEnd]

theorem runTick_not_falling (world : SurfaceProbe) (d speed : ℝ) (a : Actor)
    (h : a.IsFalling = false) :
    runTick world d speed a = ⟨a, [], []⟩ := by
  simp [runTick, Tick, Frame.start, h]

/-! ## The concrete worlds, probed from the concrete character -/

theorem leftWallWorld_left : leftProbe leftWallWorld fallingActor 100 = some leftWallHit := by
  simp [leftProbe, fallingActor_leftRayEnd, leftWallWorld]

theorem cornerWorld_left : leftProbe cornerWorld fallingActor 100 = some leftWallHit := by
  simp [leftProbe, fallingActor_leftRayEnd, cornerWorld]

theorem cornerWorld_forward : forwardProbe cornerWorld fallingActor 100 = some frontWallHit := by
  simp [forwardProbe, fallingActor_forwardRayEnd, cornerWorld]

theorem corridorWorld_left : leftProbe corridorWorld fallingActor 100 = some leftWallHit := by
  simp [leftProbe, fallingActor_leftRayEnd, corridorWorld]

theorem corridorWorld_right : rightProbe corridorWorld fallingActor 100 = some rightWallHit := by
  simp [rightProbe, fallingActor_rightRayEnd, corridorWorld]

theorem corridorWorld_forward : forwardProbe corridorWorld fallingActor 100 = none := by
  simp [forwardProbe, fallingActor_forwardRayEnd, corridorWorld]

/-! ## Which side is attached -/

/-- C1: for a falling character, one tick records an `AttachToWall` call with
side `LEFT` exactly when the left probe hits, one with side `RIGHT` exactly
when the left probe misses and the right probe hits, and none exactly when
both side probes miss, whatever the forward probe returns.  A recorded call
is always for a side whose probe hit, at most one call is recorded, and the
actor after the tick is the actor that call produces (the unchanged actor
when there is none). -/
theorem tick_attach_side_iff (world : SurfaceProbe) (d speed : ℝ) (a : Actor)
    (h : a.IsFalling = true) :
    ((∃ hit, (runTick world d speed a).attaches = [⟨LEFT, speed, hit⟩]) ↔
        (leftProbe world a d).isSome = true) ∧
    ((∃ hit, (runTick world d speed a).attaches = [⟨RIGHT, speed, hit⟩]) ↔
        (leftProbe world a d = none ∧ (rightProbe world a d).isSome = true)) ∧
    ((runTick world d speed a).attaches = [] ↔
        (leftProbe world a d = none ∧ rightProbe world a d = none)) ∧
    (∀ c ∈ (runTick world d speed a).attaches,
        (c.Direction = LEFT ∨ c.Direction = RIGHT) ∧
        (c.Direction = LEFT → (leftProbe world a d).isSome = true) ∧
        (c.Direction = RIGHT → (rightProbe world a d).isSome = true) ∧
        (runTick world d speed a).actor = AttachToWall c.Direction c.WallSpeed c.HitResult a) ∧
    ((runTick world d speed a).attaches = [] → (runTick world d speed a).actor = a) ∧
    (runTick world d speed a).attaches.length ≤ 1 := by
  rcases hL : leftProbe world a d with _ | hl
  · rcases hR : rightProbe world a d with _ | hr
    · rw [runTick_no_side world d speed a h hL hR]
      simp
    · rcases hF : forwardProbe world a d with _ | hf
      · rw [runTick_right_only world d speed a hr h hL hR hF]
        simp [LEFT, RIGHT]
      · rw [runTick_right_forward world d speed a hr hf h hL hR hF]
        simp [LEFT, RIGHT]
  · rcases hF : forwardProbe world a d with _ | hf
    · rw [runTick_left_only world d speed a hl h hL hF]
      simp [LEFT, RIGHT]
    · rw [runTick_left_forward world d speed a hl hf h hL hF]
      simp [LEFT, RIGHT]

/-- Witness of C1 in the world with one wall on the left. -/
theorem tick_attach_side_iff_witness :
    fallingActor.IsFalling = true ∧
    (((∃ hit, (runTick leftWallWorld 100 300 fallingActor).attaches = [⟨LEFT, 300, hit⟩]) ↔
        (leftProbe leftWallWorld fallingActor 100).isSome = true) ∧
    ((∃ hit, (runTick leftWallWorld 100 300 fallingActor).attaches = [⟨RIGHT, 300, hit⟩]) ↔
        (leftProbe leftWallWorld fallingActor 100 = none ∧
          (rightProbe leftWallWorld fallingActor 100).isSome = true)) ∧
    ((runTick leftWallWorld 100 300 fallingActor).attaches = [] ↔
        (leftProbe leftWallWorld fallingActor 100 = none ∧
          rightProbe leftWallWorld fallingActor 100 = none)) ∧
    (∀ c ∈ (runTick leftWallWorld 100 300 fallingActor).attaches,
        (c.Direction = LEFT ∨ c.Direction = RIGHT) ∧
        (c.Direction = LEFT → (leftProbe leftWallWorld fallingActor 100).isSome = true) ∧
        (c.Direction = RIGHT → (rightProbe leftWallWorld fallingActor 100).isSome = true) ∧
        (runTick leftWallWorld 100 300 fallingActor).actor =
          AttachToWall c.Direction c.WallSpeed c.HitResult fallingActor) ∧
    ((runTick leftWallWorld 100 300 fallingActor).attaches = [] →
        (runTick leftWallWorld 100 300 fallingActor).actor = fallingActor) ∧
    (runTick leftWallWorld 100 300 fallingActor).attaches.length ≤ 1) :=
  ⟨rfl, tick_attach_side_iff leftWallWorld 100 300 fallingActor rfl⟩

/-! ## The corner rule -/

/-- C2: for a falling character whose side probe hits with `sideHit` (the
left probe, with side `LEFT`; or the right probe after the left probe missed,
with side `RIGHT`), the one `AttachToWall` call of the tick has that side and
is made with the forward hit result when the forward probe hits, and with
`sideHit` when the forward probe misses. -/
theorem tick_corner_rule (world : SurfaceProbe) (d speed : ℝ) (a : Actor)
    (side : ℤ) (sideHit : FHitResult) (h : a.IsFalling = true)
    (hside : (side = LEFT ∧ leftProbe world a d = some sideHit) ∨
      (side = RIGHT ∧ leftProbe world a d = none ∧ rightProbe world a d = some sideHit)) :
    (runTick world d speed a).attaches =
        [⟨side, speed, (forwardProbe world a d).getD sideHit⟩] ∧
    (runTick world d speed a).actor =
        AttachToWall side speed ((forwardProbe world a d).getD sideHit) a := by
  rcases hside with ⟨hs, hL⟩ | ⟨hs, hL, hR⟩
  · subst hs
    rcases hF : forwardProbe world a d with _ | hf
    · rw [runTick_left_only world d speed a sideHit h hL hF]
      simp
    · rw [runTick_left_forward world d speed a sideHit hf h hL hF]
      simp
  · subst hs
    rcases hF : forwardProbe world a d with _ | hf
    · rw [runTick_right_only world d speed a sideHit h hL hR hF]
      simp
    · rw [runTick_right_forward world d speed a sideHit hf h hL hR hF]
      simp

/-- Witness of C2 at a corner: the left probe and the forward probe hit two
different walls, and the call is made with the wall ahead. -/
theorem tick_corner_rule_witness :
    fallingActor.IsFalling = true ∧
    leftProbe cornerWorld fallingActor 100 = some leftWallHit ∧
    forwardProbe cornerWorld fallingActor 100 = some frontWallHit ∧
    (runTick cornerWorld 100 300 fallingActor).attaches = [⟨LEFT, 300, frontWallHit⟩] ∧
    (runTick cornerWorld 100 300 fallingActor).actor =
        AttachToWall LEFT 300 frontWallHit fallingActor := by
  have key := tick_corner_rule cornerWorld 100 300 fallingActor LEFT leftWallHit rfl
    (Or.inl ⟨rfl, cornerWorld_left⟩)
  rw [cornerWorld_forward] at key
  exact ⟨rfl, cornerWorld_left, cornerWorld_forward, key⟩

/-! ## Left before right -/

/-- The right axis of a rotation has length one. -/
theorem rightAxis_norm (R : FRotator) :
    ((FRotationMatrix R).GetScaledAxis EAxis.Y).X ^ 2 +
      ((FRotationMatrix R).GetScaledAxis EAxis.Y).Y ^ 2 +
      ((FRotationMatrix R).GetScaledAxis EAxis.Y).Z ^ 2 = 1 := by
  have hP := Real.sin_sq_add_cos_sq (DegreesToRadians R.Pitch)
  have hY := Real.sin_sq_add_cos_sq (DegreesToRadians R.Yaw)
  have hR := Real.sin_sq_add_cos_sq (DegreesToRadians R.Roll)
  simp only [FRotationMatrix, FMatrix.GetScaledAxis]
  linear_combination
    (Real.sin (DegreesToRadians R.Roll) ^ 2 * Real.sin (DegreesToRadians R.Pitch) ^ 2 +
      Real.cos (DegreesToRadians R.Roll) ^ 2) * hY +
    Real.sin (DegreesToRadians R.Roll) ^ 2 * hP + hR

/-- The forward axis of a rotation is orthogonal to its right axis. -/
theorem forwardAxis_dot_rightAxis (R : FRotator) :
    ((FRotationMatrix R).GetScaledAxis EAxis.X).X * ((FRotationMatrix R).GetScaledAxis EAxis.Y).X +
      ((FRotationMatrix R).GetScaledAxis EAxis.X).Y * ((FRotationMatrix R).GetScaledAxis EAxis.Y).Y +
      ((FRotationMatrix R).GetScaledAxis EAxis.X).Z * ((FRotationMatrix R).GetScaledAxis EAxis.Y).Z
      = 0 := by
  have hY := Real.sin_sq_add_cos_sq (DegreesToRadians R.Yaw)
  simp only [FRotationMatrix, FMatrix.GetScaledAxis]
  linear_combination
    (Real.cos (DegreesToRadians R.Pitch) * Real.sin (DegreesToRadians R.Roll) *
      Real.sin (DegreesToRadians R.Pitch)) * hY

/-- For a non-zero probe distance the left ray does not end where the right
ray ends. -/
theorem leftRayEnd_ne_rightRayEnd (a : Actor) (d : ℝ) (hd : d ≠ 0) :
    leftRayEnd a d ≠ rightRayEnd a d := by
  intro e
  have n := rightAxis_norm a.Rotation
  have eX := congrArg FVector.X e
  have eY := congrArg FVector.Y e
  have eZ := congrArg FVector.Z e
  simp only [leftRayEnd, rightRayEnd, GetActorRightVector, FVector.add_eq, FVector.neg_eq,
    FVector.mul_eq] at eX eY eZ
  have zX : ((FRotationMatrix a.Rotation).GetScaledAxis EAxis.Y).X = 0 := by
    have t : ((FRotationMatrix a.Rotation).GetScaledAxis EAxis.Y).X * d = 0 := by linarith
    rcases mul_eq_zero.mp t with t | t
    · exact t
    · exact absurd t hd
  have zY : ((FRotationMatrix a.Rotation).GetScaledAxis EAxis.Y).Y = 0 := by
    have t : ((FRotationMatrix a.Rotation).GetScaledAxis EAxis.Y).Y * d = 0 := by linarith
    rcases mul_eq_zero.mp t with t | t
    · exact t
    · exact absurd t hd
  have zZ : ((FRotationMatrix a.Rotation).GetScaledAxis EAxis.Y).Z = 0 := by
    have t : ((FRotationMatrix a.Rotation).GetScaledAxis EAxis.Y).Z * d = 0 := by linarith
    rcases mul_eq_zero.mp t with t | t
    · exact t
    · exact absurd t hd
  rw [zX, zY, zZ] at n
  norm_num at n

/-- For a non-zero probe distance the forward ray does not end where the
right ray ends. -/
theorem forwardRayEnd_ne_rightRayEnd (a : Actor) (d : ℝ) (hd : d ≠ 0) :
    forwardRayEnd a d ≠ rightRayEnd a d := by
  intro e
  have n := rightAxis_norm a.Rotation
  have o := forwardAxis_dot_rightAxis a.Rotation
  have eX := congrArg FVector.X e
  have eY := congrArg FVector.Y e
  have eZ := congrArg FVector.Z e
  simp only [forwardRayEnd, rightRayEnd, GetActorRightVector, GetActorForwardVector,
    FVector.add_eq, FVector.mul_eq] at eX eY eZ
  have zX : ((FRotationMatrix a.Rotation).GetScaledAxis EAxis.X).X =
      ((FRotationMatrix a.Rotation).GetScaledAxis EAxis.Y).X :=
    mul_right_cancel₀ hd (by linarith)
  have zY : ((FRotationMatrix a.Rotation).GetScaledAxis EAxis.X).Y =
      ((FRotationMatrix a.Rotation).GetScaledAxis EAxis.Y).Y :=
    mul_right_cancel₀ hd (by linarith)
  have zZ : ((FRotationMatrix a.Rotation).GetScaledAxis EAxis.X).Z =
      ((FRotationMatrix a.Rotation).GetScaledAxis EAxis.Y).Z :=
    mul_right_cancel₀ hd (by linarith)
  rw [zX, zY, zZ] at o
  nlinarith [n, o]

/-- C3: for a falling character for which both the left and the right probe
would hit, the tick makes the left-branch call (side `LEFT`, with the forward
hit when the forward probe hits, else with the left hit), and the right probe
is not invoked: no recorded line trace comes from the right call site, and
for a non-zero probe distance no recorded line trace ends where the right ray
ends. -/
theorem tick_left_priority (world : SurfaceProbe) (d speed : ℝ) (a : Actor)
    (leftHit : FHitResult) (h : a.IsFalling = true)
    (hL : leftProbe world a d = some leftHit)
    (_hR : (rightProbe world a d).isSome = true) :
    (runTick world d speed a).attaches =
        [⟨LEFT, speed, (forwardProbe world a d).getD leftHit⟩] ∧
    (runTick world d speed a).actor =
        AttachToWall LEFT speed ((forwardProbe world a d).getD leftHit) a ∧
    (∀ c ∈ (runTick world d speed a).traces, c.site ≠ TraceSite.HitResulRight) ∧
    (d ≠ 0 → ∀ c ∈ (runTick world d speed a).traces, c.End ≠ rightRayEnd a d) := by
  have g : d ≠ 0 → ∀ c ∈ [leftCall a d, forwardCall a d], c.End ≠ rightRayEnd a d := by
    intro hd c hc
    simp only [List.mem_cons, List.mem_singleton, List.not_mem_nil, or_false] at hc
    rcases hc with hc | hc
    · subst hc
      exact leftRayEnd_ne_rightRayEnd a d hd
    · subst hc
      exact forwardRayEnd_ne_rightRayEnd a d hd
  rcases hF : forwardProbe world a d with _ | hf
  · rw [runTick_left_only world d speed a leftHit h hL hF]
    exact ⟨rfl, rfl, by simp [leftCall, forwardCall], g⟩
  · rw [runTick_left_forward world d speed a leftHit hf h hL hF]
    exact ⟨rfl, rfl, by simp [leftCall, forwardCall], g⟩

/-- Witness of C3 between two walls: both side probes hit, the call is made
with the left wall, and the right trace is not issued. -/
theorem tick_left_priority_witness :
    fallingActor.IsFalling = true ∧
    leftProbe corridorWorld fallingActor 100 = some leftWallHit ∧
    (rightProbe corridorWorld fallingActor 100).isSome = true ∧
    (runTick corridorWorld 100 300 fallingActor).attaches = [⟨LEFT, 300, leftWallHit⟩] ∧
    (runTick corridorWorld 100 300 fallingActor).actor =
        AttachToWall LEFT 300 leftWallHit fallingActor ∧
    (∀ c ∈ (runTick corridorWorld 100 300 fallingActor).traces,
        c.site ≠ TraceSite.HitResulRight) ∧
    (∀ c ∈ (runTick corridorWorld 100 300 fallingActor).traces,
        c.End ≠ rightRayEnd fallingActor 100) := by
  have hR : (rightProbe corridorWorld fallingActor 100).isSome = true := by
    rw [corridorWorld_right]; rfl
  have key := tick_left_priority corridorWorld 100 300 fallingActor leftWallHit rfl
    corridorWorld_left hR
  rw [corridorWorld_forward] at key
  exact ⟨rfl, corridorWorld_left, hR, key.1, key.2.1, key.2.2.1, key.2.2.2 (by norm_num)⟩

/-! ## Not falling -/

/-- C6: when the character is not falling, the wall-run step of the tick
issues no line trace, does not call `AttachToWall`, and leaves the actor
(location, rotation, velocity) as it was. -/
theorem tick_not_falling_noop (world : SurfaceProbe) (d speed : ℝ) (a : Actor)
    (h : a.IsFalling = false) :
    (runTick world d speed a).traces = [] ∧
    (runTick world d speed a).attaches = [] ∧
    (runTick world d speed a).actor = a ∧
    (runTick world d speed a).actor.Location = a.Location ∧
    (runTick world d speed a).actor.Rotation = a.Rotation ∧
    (runTick world d speed a).actor.Velocity = a.Velocity := by
  rw [runTick_not_falling world d speed a h]
  simp

/-- Witness of C6: the walking character between two walls. -/
theorem tick_not_falling_noop_witness :
    walkingActor.IsFalling = false ∧
    (runTick corridorWorld 100 300 walkingActor).traces = [] ∧
    (runTick corridorWorld 100 300 walkingActor).attaches = [] ∧
    (runTick corridorWorld 100 300 walkingActor).actor = walkingActor ∧
    (runTick corridorWorld 100 300 walkingActor).actor.Location = walkingActor.Location ∧
    (runTick corridorWorld 100 300 walkingActor).actor.Rotation = walkingActor.Rotation ∧
    (runTick corridorWorld 100 300 walkingActor).actor.Velocity = walkingActor.Velocity :=
  ⟨rfl, tick_not_falling_noop corridorWorld 100 300 walkingActor rfl⟩

/-! ## No wall -/

/-- C7, as stated, fails: in the world without walls none of the three probes
hits for the falling character, and the tick issues two line traces, not
three. -/
theorem tick_no_wall_three_traces_false :
    fallingActor.IsFalling = true ∧
    leftProbe emptyWorld fallingActor 100 = none ∧
    rightProbe emptyWorld fallingActor 100 = none ∧
    forwardProbe emptyWorld fallingActor 100 = none ∧
    (runTick emptyWorld 100 300 fallingActor).traces.length = 2 ∧
    ¬ ((runTick emptyWorld 100 300 fallingActor).attaches = [] ∧
        (runTick emptyWorld 100 300 fallingActor).traces.length = 3) := by
  have e := runTick_no_side emptyWorld 100 300 fallingActor rfl rfl rfl
  refine ⟨rfl, rfl, rfl, rfl, ?_, ?_⟩
  · rw [e]; rfl
  · rw [e]; simp

/-- C7, amended: for a falling character for which none of the left, right
and forward probes hits, the tick makes no `AttachToWall` call, leaves the
actor as it was, and issues exactly two line traces: the left one, then the
right one. -/
theorem tick_no_wall_two_traces (world : SurfaceProbe) (d speed : ℝ) (a : Actor)
    (h : a.IsFalling = true)
    (hL : leftProbe world a d = none) (hR : rightProbe world a d = none)
    (_hF : forwardProbe world a d = none) :
    (runTick world d speed a).attaches = [] ∧
    (runTick world d speed a).actor = a ∧
    (runTick world d speed a).traces.length = 2 ∧
    (runTick world d speed a).traces = [leftCall a d, rightCall a d] := by
  rw [runTick_no_side world d speed a h hL hR]
  simp

/-- Witness of amended C7 in the world without walls. -/
theorem tick_no_wall_two_traces_witness :
    fallingActor.IsFalling = true ∧
    leftProbe emptyWorld fallingActor 100 = none ∧
    rightProbe emptyWorld fallingActor 100 = none ∧
    forwardProbe emptyWorld fallingActor 100 = none ∧
    (runTick emptyWorld 100 300 fallingActor).attaches = [] ∧
    (runTick emptyWorld 100 300 fallingActor).actor = fallingActor ∧
    (runTick emptyWorld 100 300 fallingActor).traces.length = 2 ∧
    (runTick emptyWorld 100 300 fallingActor).traces =
        [leftCall fallingActor 100, rightCall fallingActor 100] :=
  ⟨rfl, rfl, rfl, rfl, tick_no_wall_two_traces emptyWorld 100 300 fallingActor rfl rfl rfl rfl⟩

/-! ## How many traces, and in which order -/

theorem leftCall_world (world : SurfaceProbe) (a : Actor) (d : ℝ) :
    world (leftCall a d).Start (leftCall a d).End = leftProbe world a d := rfl

theorem rightCall_world (world : SurfaceProbe) (a : Actor) (d : ℝ) :
    world (rightCall a d).Start (rightCall a d).End = rightProbe world a d := rfl

/-- A falling tick issues two or three line traces. -/
theorem runTick_traces_length (world : SurfaceProbe) (d speed : ℝ) (a : Actor)
    (h : a.IsFalling = true) :
    (runTick world d speed a).traces.length = 2 ∨
    (runTick world d speed a).traces.length = 3 := by
  rcases hL : leftProbe world a d with _ | hl
  · rcases hR : rightProbe world a d with _ | hr
    · rw [runTick_no_side world d speed a h hL hR]; simp
    · rcases hF : forwardProbe world a d with _ | hf
      · rw [runTick_right_only world d speed a hr h hL hR hF]; simp
      · rw [runTick_right_forward world d speed a hr hf h hL hR hF]; simp
  · rcases hF : forwardProbe world a d with _ | hf
    · rw [runTick_left_only world d speed a hl h hL hF]; simp
    · rw [runTick_left_forward world d speed a hl hf h hL hF]; simp

/-- In a trace list that starts with the left trace followed by the forward
trace, where the left probe hit, a forward trace comes after a side hit. -/
theorem forward_after_left (world : SurfaceProbe) (d : ℝ) (a : Actor)
    (hL : (leftProbe world a d).isSome = true) (i : ℕ) (c : TraceCall)
    (hi : [leftCall a d, forwardCall a d][i]? = some c)
    (hs : c.site = TraceSite.HitResultForward) :
    ∃ j s, j < i ∧ [leftCall a d, forwardCall a d][j]? = some s ∧
      (s.site = TraceSite.HitResultLeft ∨ s.site = TraceSite.HitResulRight) ∧
      (world s.Start s.End).isSome = true := by
  rcases i with _ | _ | i
  · simp at hi
    subst hi
    simp [leftCall] at hs
  · exact ⟨0, leftCall a d, by omega, rfl, Or.inl rfl, hL⟩
  · simp at hi

/-- In a trace list left, right, forward, where the right probe hit, a
forward trace comes after a side hit. -/
theorem forward_after_right (world : SurfaceProbe) (d : ℝ) (a : Actor)
    (hR : (rightProbe world a d).isSome = true) (i : ℕ) (c : TraceCall)
    (hi : [leftCall a d, rightCall a d, forwardCall a d][i]? = some c)
    (hs : c.site = TraceSite.HitResultForward) :
    ∃ j s, j < i ∧ [leftCall a d, rightCall a d, forwardCall a d][j]? = some s ∧
      (s.site = TraceSite.HitResultLeft ∨ s.site = TraceSite.HitResulRight) ∧
      (world s.Start s.End).isSome = true := by
  rcases i with _ | _ | _ | i
  · simp at hi
    subst hi
    simp [leftCall] at hs
  · simp at hi
    subst hi
    simp [rightCall] at hs
  · exact ⟨1, rightCall a d, by omega, rfl, Or.inr rfl, hR⟩
  · simp at hi

/-- C8: for a falling character, one tick issues at most 4 line traces, the
first of them is the left trace, and every forward trace in the record comes
after a side trace (left or right) that hit. -/
theorem tick_trace_discipline (world : SurfaceProbe) (d speed : ℝ) (a : Actor)
    (h : a.IsFalling = true) :
    (runTick world d speed a).traces.length ≤ 4 ∧
    (runTick world d speed a).traces.head? = some (leftCall a d) ∧
    (∀ (i : ℕ) (c : TraceCall), (runTick world d speed a).traces[i]? = some c →
      c.site = TraceSite.HitResultForward →
      ∃ j s, j < i ∧ (runTick world d speed a).traces[j]? = some s ∧
        (s.site = TraceSite.HitResultLeft ∨ s.site = TraceSite.HitResulRight) ∧
        (world s.Start s.End).isSome = true) := by
  refine ⟨?_, ?_, ?_⟩
  · rcases runTick_traces_length world d speed a h with e | e <;> omega
  · rcases hL : leftProbe world a d with _ | hl
    · rcases hR : rightProbe world a d with _ | hr
      · rw [runTick_no_side world d speed a h hL hR]; rfl
      · rcases hF : forwardProbe world a d with _ | hf
        · rw [runTick_right_only world d speed a hr h hL hR hF]; rfl
        · rw [runTick_right_forward world d speed a hr hf h hL hR hF]; rfl
    · rcases hF : forwardProbe world a d with _ | hf
      · rw [runTick_left_only world d speed a hl h hL hF]; rfl
      · rw [runTick_left_forward world d speed a hl hf h hL hF]; rfl
  · intro i c hi hs
    rcases hL : leftProbe world a d with _ | hl
    · rcases hR : rightProbe world a d with _ | hr
      · rw [runTick_no_side world d speed a h hL hR] at hi
        rcases i with _ | _ | i
        · simp at hi
          subst hi
          simp [leftCall] at hs
        · simp at hi
          subst hi
          simp [rightCall] at hs
        · simp at hi
      · have hR2 : (rightProbe world a d).isSome = true := by rw [hR]; rfl
        rcases hF : forwardProbe world a d with _ | hf
        · rw [runTick_right_only world d speed a hr h hL hR hF] at hi ⊢
          exact forward_after_right world d a hR2 i c hi hs
        · rw [runTick_right_forward world d speed a hr hf h hL hR hF] at hi ⊢
          exact forward_after_right world d a hR2 i c hi hs
    · have hL2 : (leftProbe world a d).isSome = true := by rw [hL]; rfl
      rcases hF : forwardProbe world a d with _ | hf
      · rw [runTick_left_only world d speed a hl h hL hF] at hi ⊢
        exact forward_after_left world d a hL2 i c hi hs
      · rw [runTick_left_forward world d speed a hl hf h hL hF] at hi ⊢
        exact forward_after_left world d a hL2 i c hi hs

/-- Witness of C8 at a corner. -/
theorem tick_trace_discipline_witness :
    fallingActor.IsFalling = true ∧
    (runTick cornerWorld 100 300 fallingActor).traces.length ≤ 4 ∧
    (runTick cornerWorld 100 300 fallingActor).traces.head? = some (leftCall fallingActor 100) ∧
    (∀ (i : ℕ) (c : TraceCall),
      (runTick cornerWorld 100 300 fallingActor).traces[i]? = some c →
      c.site = TraceSite.HitResultForward →
      ∃ j s, j < i ∧ (runTick cornerWorld 100 300 fallingActor).traces[j]? = some s ∧
        (s.site = TraceSite.HitResultLeft ∨ s.site = TraceSite.HitResulRight) ∧
        (cornerWorld s.Start s.End).isSome = true) :=
  ⟨rfl, tick_trace_discipline cornerWorld 100 300 fallingActor rfl⟩

/-! ## Angles -/

theorem DegreesToRadians_zero : DegreesToRadians 0 = 0 := by
  simp [DegreesToRadians]

/-- Converting radians to degrees and back is the identity. -/
theorem DegreesToRadians_of_degrees (r : ℝ) :
    DegreesToRadians (r * (180 / Real.pi)) = r := by
  unfold DegreesToRadians
  field_simp [Real.pi_ne_zero]

theorem cos_LEFT : Real.cos (DegreesToRadians ((LEFT : ℤ) : ℝ)) = 0 := by
  have e : DegreesToRadians ((LEFT : ℤ) : ℝ) = -(Real.pi / 2) := by
    simp only [DegreesToRadians, LEFT]; push_cast; ring
  rw [e, Real.cos_neg, Real.cos_pi_div_two]

theorem sin_LEFT : Real.sin (DegreesToRadians ((LEFT : ℤ) : ℝ)) = -1 := by
  have e : DegreesToRadians ((LEFT : ℤ) : ℝ) = -(Real.pi / 2) := by
    simp only [DegreesToRadians, LEFT]; push_cast; ring
  rw [e, Real.sin_neg, Real.sin_pi_div_two]

theorem cos_RIGHT : Real.cos (DegreesToRadians ((RIGHT : ℤ) : ℝ)) = 0 := by
  have e : DegreesToRadians ((RIGHT : ℤ) : ℝ) = Real.pi / 2 := by
    simp only [DegreesToRadians, RIGHT]; push_cast; ring
  rw [e, Real.cos_pi_div_two]

theorem sin_RIGHT : Real.sin (DegreesToRadians ((RIGHT : ℤ) : ℝ)) = 1 := by
  have e : DegreesToRadians ((RIGHT : ℤ) : ℝ) = Real.pi / 2 := by
    simp only [DegreesToRadians, RIGHT]; push_cast; ring
  rw [e, Real.sin_pi_div_two]

/-- Away from the origin the cosine of `Atan2 Y X` is `X` over the length. -/
theorem cos_Atan2 (X Y : ℝ) (hne : X ≠ 0 ∨ Y ≠ 0) :
    Real.cos (Atan2 Y X) = X / Real.sqrt (X * X + Y * Y) := by
  have hz : (⟨X, Y⟩ : ℂ) ≠ 0 := by
    intro hc
    have h1 := congrArg Complex.re hc
    have h2 := congrArg Complex.im hc
    simp at h1 h2
    rcases hne with h | h
    · exact h h1
    · exact h h2
  unfold Atan2
  rw [Complex.cos_arg hz, Complex.abs_apply, Complex.normSq_mk]

/-- The sine of `Atan2 Y X` is `Y` over the length. -/
theorem sin_Atan2 (X Y : ℝ) :
    Real.sin (Atan2 Y X) = Y / Real.sqrt (X * X + Y * Y) := by
  unfold Atan2
  rw [Complex.sin_arg, Complex.abs_apply, Complex.normSq_mk]

/-! ## The rotations of AttachToWall -/

/-- A yaw-only rotator rotates a vector about the vertical axis. -/
theorem RotateVector_yaw (deg : ℝ) (v : FVector) :
    (FRotator.mk 0 deg 0).RotateVector v = rotateAboutVertical deg v := by
  simp [FRotator.RotateVector, FRotationMatrix, FMatrix.TransformVector, rotateAboutVertical,
    DegreesToRadians]
  ring

theorem rotateAboutVertical_LEFT (v : FVector) :
    rotateAboutVertical (-90) v = ⟨v.Y, -v.X, v.Z⟩ := by
  have e : (-90 : ℝ) * (Real.pi / 180) = -(Real.pi / 2) := by ring
  simp [rotateAboutVertical, e]

theorem rotateAboutVertical_RIGHT (v : FVector) :
    rotateAboutVertical 90 v = ⟨-v.Y, v.X, v.Z⟩ := by
  have e : (90 : ℝ) * (Real.pi / 180) = Real.pi / 2 := by ring
  simp [rotateAboutVertical, e]

/-- The right axis of the rotation of a vector, in coordinates. -/
theorem rightAxis_of_Rotation (n : FVector) :
    (FRotationMatrix n.Rotation).GetScaledAxis EAxis.Y =
      ⟨-Real.sin (Atan2 n.Y n.X), Real.cos (Atan2 n.Y n.X), 0⟩ := by
  simp [FRotationMatrix, FVector.Rotation, FMatrix.GetScaledAxis, DegreesToRadians_zero,
    DegreesToRadians_of_degrees]

/-- The specification's along-wall direction, in coordinates. -/
theorem alongWallUnit_eq (n : FVector) :
    alongWallUnit n = ⟨-Real.sin (Atan2 n.Y n.X), Real.cos (Atan2 n.Y n.X), 0⟩ := by
  simp [alongWallUnit, FRotationMatrix, FVector.Rotation, FMatrix.GetScaledAxis,
    DegreesToRadians_zero, DegreesToRadians_of_degrees]

/-- The rotation that `AttachToWall` applies. -/
theorem AttachToWall_Rotation (Direction : ℤ) (speed : ℝ) (hit : FHitResult) (a : Actor) :
    (AttachToWall Direction speed hit a).Rotation =
      ⟨0, (rotateAboutVertical (Direction : ℝ) hit.Normal).Rotation.Yaw, 0⟩ := by
  simp [AttachToWall, SetActorLocation, SetActorRotation, RotateVector_yaw]

/-- The location that `AttachToWall` applies. -/
theorem AttachToWall_Location (Direction : ℤ) (speed : ℝ) (hit : FHitResult) (a : Actor) :
    (AttachToWall Direction speed hit a).Location =
      if Direction = LEFT then
        -((FRotationMatrix hit.Normal.Rotation).GetScaledAxis EAxis.Y * speed) + a.Location
      else (FRotationMatrix hit.Normal.Rotation).GetScaledAxis EAxis.Y * speed + a.Location := by
  simp [AttachToWall, SetActorLocation, SetActorRotation, GetActorLocation,
    StopMovementKeepPathing]

theorem Atan2_zero_one : Atan2 0 1 = 0 := by
  have e : (⟨1, 0⟩ : ℂ) = 1 := by apply Complex.ext <;> simp
  unfold Atan2
  rw [e, Complex.arg_one]

/-- The right axis of the rotation of the normal `(0,1,0)`. -/
theorem rightAxis_leftWallHit :
    (FRotationMatrix leftWallHit.Normal.Rotation).GetScaledAxis EAxis.Y = ⟨-1, 0, 0⟩ := by
  rw [rightAxis_of_Rotation, sin_Atan2, cos_Atan2 _ _ (Or.inr (by simp [leftWallHit]))]
  simp [leftWallHit]

/-! ## Where AttachToWall puts the character -/

/-- C4: `AttachToWall` sets the location to the location before the call plus
`s` times the along-wall direction times the speed, with `s = -1` for side
`LEFT` and `s = +1` for side `RIGHT`; the along-wall direction is the local
right axis of the rotation of the hit normal, which is also the right axis of
the yaw-only rotation with the normal's yaw.  For the character at `(0,0,100)`,
the normal `(0,1,0)`, side `LEFT` and speed `300`, the along-wall direction is
`(-1,0,0)` and the new location is `(300,0,100)`. -/
theorem attach_position (speed : ℝ) (hit : FHitResult) (a : Actor) :
    (AttachToWall LEFT speed hit a).Location =
        a.Location +
          ((FRotationMatrix hit.Normal.Rotation).GetScaledAxis EAxis.Y * (-1 : ℝ)) * speed ∧
    (AttachToWall RIGHT speed hit a).Location =
        a.Location +
          ((FRotationMatrix hit.Normal.Rotation).GetScaledAxis EAxis.Y * (1 : ℝ)) * speed ∧
    (FRotationMatrix hit.Normal.Rotation).GetScaledAxis EAxis.Y = alongWallUnit hit.Normal ∧
    (FRotationMatrix leftWallHit.Normal.Rotation).GetScaledAxis EAxis.Y = ⟨-1, 0, 0⟩ ∧
    (AttachToWall LEFT 300 leftWallHit fallingActor).Location = ⟨300, 0, 100⟩ := by
  refine ⟨?_, ?_, ?_, rightAxis_leftWallHit, ?_⟩
  · rw [AttachToWall_Location, if_pos rfl]
    ext <;> simp [FVector.add_eq, FVector.neg_eq, FVector.mul_eq] <;> ring
  · rw [AttachToWall_Location, if_neg (by decide)]
    ext <;> simp [FVector.add_eq, FVector.mul_eq] <;> ring
  · rw [rightAxis_of_Rotation, alongWallUnit_eq]
  · rw [AttachToWall_Location, if_pos rfl, rightAxis_leftWallHit]
    ext <;> simp [FVector.add_eq, FVector.neg_eq, FVector.mul_eq, fallingActor]

/-! ## How AttachToWall turns the character -/

/-- C5: the rotation `AttachToWall` applies has pitch 0 and roll 0, and its
yaw is the yaw of the hit normal rotated about the vertical axis by -90
degrees for side `LEFT` and by +90 degrees for side `RIGHT`, that is of
`(Y, -X, Z)` and `(-Y, X, Z)`.  For the normal `(0,1,0)` and side `LEFT` the
rotated normal is `(1,0,0)` and the applied rotation has yaw 0. -/
theorem attach_rotation (speed : ℝ) (hit : FHitResult) (a : Actor) :
    (AttachToWall LEFT speed hit a).Rotation =
        ⟨0, (rotateAboutVertical (-90) hit.Normal).Rotation.Yaw, 0⟩ ∧
    (AttachToWall RIGHT speed hit a).Rotation =
        ⟨0, (rotateAboutVertical 90 hit.Normal).Rotation.Yaw, 0⟩ ∧
    rotateAboutVertical (-90) hit.Normal = ⟨hit.Normal.Y, -hit.Normal.X, hit.Normal.Z⟩ ∧
    rotateAboutVertical 90 hit.Normal = ⟨-hit.Normal.Y, hit.Normal.X, hit.Normal.Z⟩ ∧
    rotateAboutVertical (-90) leftWallHit.Normal = ⟨1, 0, 0⟩ ∧
    (AttachToWall LEFT 300 leftWallHit fallingActor).Rotation = ⟨0, 0, 0⟩ := by
  have eL : ((LEFT : ℤ) : ℝ) = -90 := by simp [LEFT]
  have eR : ((RIGHT : ℤ) : ℝ) = 90 := by simp [RIGHT]
  refine ⟨?_, ?_, rotateAboutVertical_LEFT _, rotateAboutVertical_RIGHT _, ?_, ?_⟩
  · rw [AttachToWall_Rotation, eL]
  · rw [AttachToWall_Rotation, eR]
  · rw [rotateAboutVertical_LEFT]
    simp [leftWallHit]
  · rw [AttachToWall_Rotation, eL, rotateAboutVertical_LEFT]
    simp [leftWallHit, FVector.Rotation, Atan2_zero_one]

/-! ## The move is along the new facing -/

/-- The forward axis of a yaw-only rotation. -/
theorem forwardAxis_yaw (yaw : ℝ) :
    (FRotationMatrix ⟨0, yaw, 0⟩).GetScaledAxis EAxis.X =
      ⟨Real.cos (DegreesToRadians yaw), Real.sin (DegreesToRadians yaw), 0⟩ := by
  simp [FRotationMatrix, FMatrix.GetScaledAxis, DegreesToRadians_zero]

theorem AttachToWall_yaw_LEFT (speed : ℝ) (hit : FHitResult) (a : Actor) :
    DegreesToRadians (AttachToWall LEFT speed hit a).Rotation.Yaw =
      Atan2 (-hit.Normal.X) hit.Normal.Y := by
  have eL : ((LEFT : ℤ) : ℝ) = -90 := by simp [LEFT]
  rw [AttachToWall_Rotation, eL, rotateAboutVertical_LEFT]
  simp [FVector.Rotation, DegreesToRadians_of_degrees]

theorem AttachToWall_yaw_RIGHT (speed : ℝ) (hit : FHitResult) (a : Actor) :
    DegreesToRadians (AttachToWall RIGHT speed hit a).Rotation.Yaw =
      Atan2 hit.Normal.X (-hit.Normal.Y) := by
  have eR : ((RIGHT : ℤ) : ℝ) = 90 := by simp [RIGHT]
  rw [AttachToWall_Rotation, eR, rotateAboutVertical_RIGHT]
  simp [FVector.Rotation, DegreesToRadians_of_degrees]

theorem AttachToWall_displacement_LEFT (speed : ℝ) (hit : FHitResult) (a : Actor) :
    (AttachToWall LEFT speed hit a).Location - a.Location =
      ⟨Real.sin (Atan2 hit.Normal.Y hit.Normal.X) * speed,
       -(Real.cos (Atan2 hit.Normal.Y hit.Normal.X) * speed), 0⟩ := by
  rw [AttachToWall_Location, if_pos rfl, rightAxis_of_Rotation]
  ext <;> simp [FVector.add_eq, FVector.neg_eq, FVector.mul_eq, FVector.sub_eq]

theorem AttachToWall_displacement_RIGHT (speed : ℝ) (hit : FHitResult) (a : Actor) :
    (AttachToWall RIGHT speed hit a).Location - a.Location =
      ⟨-(Real.sin (Atan2 hit.Normal.Y hit.Normal.X) * speed),
       Real.cos (Atan2 hit.Normal.Y hit.Normal.X) * speed, 0⟩ := by
  rw [AttachToWall_Location, if_neg (by decide), rightAxis_of_Rotation]
  ext <;> simp [FVector.add_eq, FVector.mul_eq, FVector.sub_eq]

/-- The displacement of `AttachToWall`, for either side, is the speed times
the unit vector of the new yaw. -/
theorem AttachToWall_displacement (Direction : ℤ) (speed : ℝ) (hit : FHitResult) (a : Actor)
    (hd : Direction = LEFT ∨ Direction = RIGHT)
    (hn : hit.Normal.X ≠ 0 ∨ hit.Normal.Y ≠ 0) :
    (AttachToWall Direction speed hit a).Location - a.Location =
      ⟨speed * Real.cos (DegreesToRadians (AttachToWall Direction speed hit a).Rotation.Yaw),
       speed * Real.sin (DegreesToRadians (AttachToWall Direction speed hit a).Rotation.Yaw),
       0⟩ := by
  have hL : Real.sqrt (hit.Normal.Y * hit.Normal.Y + -hit.Normal.X * -hit.Normal.X) =
      Real.sqrt (hit.Normal.X * hit.Normal.X + hit.Normal.Y * hit.Normal.Y) := by
    congr 1; ring
  have hR : Real.sqrt (-hit.Normal.Y * -hit.Normal.Y + hit.Normal.X * hit.Normal.X) =
      Real.sqrt (hit.Normal.X * hit.Normal.X + hit.Normal.Y * hit.Normal.Y) := by
    congr 1; ring
  rcases hd with hd | hd
  · subst hd
    have hne : hit.Normal.Y ≠ 0 ∨ -hit.Normal.X ≠ 0 := by
      rcases hn with h | h
      · exact Or.inr (neg_ne_zero.mpr h)
      · exact Or.inl h
    rw [AttachToWall_displacement_LEFT, AttachToWall_yaw_LEFT, cos_Atan2 _ _ hne, sin_Atan2,
      sin_Atan2, cos_Atan2 _ _ hn, hL]
    ext <;> simp <;> ring
  · subst hd
    have hne : -hit.Normal.Y ≠ 0 ∨ hit.Normal.X ≠ 0 := by
      rcases hn with h | h
      · exact Or.inr h
      · exact Or.inl (neg_ne_zero.mpr h)
    rw [AttachToWall_displacement_RIGHT, AttachToWall_yaw_RIGHT, cos_Atan2 _ _ hne, sin_Atan2,
      sin_Atan2, cos_Atan2 _ _ hn, hR]
    ext <;> simp <;> ring

/-- C9: for a hit normal whose horizontal part `(X, Y)` is not `(0, 0)`, for
both sides and every speed, the displacement `AttachToWall` applies (new
location minus old location) is the speed times the forward axis of the
rotation it applies, that is `speed * (cos yaw, sin yaw, 0)` for the new yaw;
the height is unchanged and the squared length of the displacement is the
squared speed.  No frame time enters `AttachToWall`. -/
theorem attach_moves_along_facing (Direction : ℤ) (speed : ℝ) (hit : FHitResult) (a : Actor)
    (hd : Direction = LEFT ∨ Direction = RIGHT)
    (hn : hit.Normal.X ≠ 0 ∨ hit.Normal.Y ≠ 0) :
    (AttachToWall Direction speed hit a).Location - a.Location =
      (FRotationMatrix (AttachToWall Direction speed hit a).Rotation).GetScaledAxis EAxis.X
        * speed ∧
    (AttachToWall Direction speed hit a).Location - a.Location =
      ⟨speed * Real.cos (DegreesToRadians (AttachToWall Direction speed hit a).Rotation.Yaw),
       speed * Real.sin (DegreesToRadians (AttachToWall Direction speed hit a).Rotation.Yaw),
       0⟩ ∧
    (AttachToWall Direction speed hit a).Location.Z = a.Location.Z ∧
    ((AttachToWall Direction speed hit a).Location - a.Location).X ^ 2 +
      ((AttachToWall Direction speed hit a).Location - a.Location).Y ^ 2 +
      ((AttachToWall Direction speed hit a).Location - a.Location).Z ^ 2 = speed ^ 2 := by
  have key := AttachToWall_displacement Direction speed hit a hd hn
  refine ⟨?_, key, ?_, ?_⟩
  · rw [key]
    have e : (AttachToWall Direction speed hit a).Rotation =
        ⟨0, (AttachToWall Direction speed hit a).Rotation.Yaw, 0⟩ := by
      rw [AttachToWall_Rotation]
    rw [e, forwardAxis_yaw]
    ext <;> simp [FVector.mul_eq] <;> ring
  · have hz := congrArg FVector.Z key
    simp [FVector.sub_eq] at hz
    linarith
  · rw [key]
    simp only []
    have t := Real.sin_sq_add_cos_sq
      (DegreesToRadians (AttachToWall Direction speed hit a).Rotation.Yaw)
    nlinarith [t]

/-- Witness of C9: the left wall with normal `(0,1,0)`, side `LEFT`. -/
theorem attach_moves_along_facing_witness :
    (LEFT = LEFT ∨ LEFT = RIGHT) ∧
    (leftWallHit.Normal.X ≠ 0 ∨ leftWallHit.Normal.Y ≠ 0) ∧
    (AttachToWall LEFT 300 leftWallHit fallingActor).Location - fallingActor.Location =
      (FRotationMatrix (AttachToWall LEFT 300 leftWallHit fallingActor).Rotation).GetScaledAxis
        EAxis.X * (300 : ℝ) ∧
    (AttachToWall LEFT 300 leftWallHit fallingActor).Location - fallingActor.Location =
      ⟨300 * Real.cos
          (DegreesToRadians (AttachToWall LEFT 300 leftWallHit fallingActor).Rotation.Yaw),
       300 * Real.sin
          (DegreesToRadians (AttachToWall LEFT 300 leftWallHit fallingActor).Rotation.Yaw),
       0⟩ ∧
    (AttachToWall LEFT 300 leftWallHit fallingActor).Location.Z = fallingActor.Location.Z ∧
    ((AttachToWall LEFT 300 leftWallHit fallingActor).Location - fallingActor.Location).X ^ 2 +
      ((AttachToWall LEFT 300 leftWallHit fallingActor).Location - fallingActor.Location).Y ^ 2 +
      ((AttachToWall LEFT 300 leftWallHit fallingActor).Location - fallingActor.Location).Z ^ 2
        = (300 : ℝ) ^ 2 :=
  ⟨Or.inl rfl, Or.inr (by simp [leftWallHit]),
    attach_moves_along_facing LEFT 300 leftWallHit fallingActor (Or.inl rfl)
      (Or.inr (by simp [leftWallHit]))⟩

/-! ## Only the normal of the hit matters -/

/-- C10: two hit results with the same normal give the same actor after
`AttachToWall`, whatever their hit points and distances; and the location and
rotation `AttachToWall` produces are the same for two actors at the same
location, whatever their own rotation (hence forward and right vectors) and
velocity. -/
theorem attach_depends_on_normal_only (Direction : ℤ) (speed : ℝ) (h1 h2 : FHitResult)
    (a b : Actor) (hn : h1.Normal = h2.Normal) (hp : a.Location = b.Location) :
    AttachToWall Direction speed h1 a = AttachToWall Direction speed h2 a ∧
    (AttachToWall Direction speed h1 a).Location =
      (AttachToWall Direction speed h2 b).Location ∧
    (AttachToWall Direction speed h1 a).Rotation =
      (AttachToWall Direction speed h2 b).Rotation ∧
    (AttachToWall Direction speed h1 a).Velocity =
      (AttachToWall Direction speed h2 b).Velocity := by
  refine ⟨?_, ?_, ?_, ?_⟩
  · simp [AttachToWall, hn]
  · rw [AttachToWall_Location, AttachToWall_Location, hn, hp]
  · rw [AttachToWall_Rotation, AttachToWall_Rotation, hn]
  · simp [AttachToWall, SetActorLocation, SetActorRotation, StopMovementKeepPathing]

/-- Witness of C10: two hits on the left wall at different points and
distances, and two actors at the same place facing differently. -/
theorem attach_depends_on_normal_only_witness :
    leftWallHit.Normal = farLeftWallHit.Normal ∧
    fallingActor.Location = turnedActor.Location ∧
    leftWallHit.Distance ≠ farLeftWallHit.Distance ∧
    fallingActor.Rotation.Yaw ≠ turnedActor.Rotation.Yaw ∧
    AttachToWall LEFT 300 leftWallHit fallingActor =
      AttachToWall LEFT 300 farLeftWallHit fallingActor ∧
    (AttachToWall LEFT 300 leftWallHit fallingActor).Location =
      (AttachToWall LEFT 300 farLeftWallHit turnedActor).Location ∧
    (AttachToWall LEFT 300 leftWallHit fallingActor).Rotation =
      (AttachToWall LEFT 300 farLeftWallHit turnedActor).Rotation ∧
    (AttachToWall LEFT 300 leftWallHit fallingActor).Velocity =
      (AttachToWall LEFT 300 farLeftWallHit turnedActor).Velocity :=
  ⟨rfl, rfl, by norm_num [leftWallHit, farLeftWallHit],
    by norm_num [fallingActor, turnedActor],
    attach_depends_on_normal_only LEFT 300 leftWallHit farLeftWallHit fallingActor turnedActor
      rfl rfl⟩

end WallRun

end
